import Mathlib

set_option maxRecDepth 8192

/-!
Shallow embedding of the two AWS Lambda handlers of the serverless-workshop
repository:

* `src/image-generator/lambda/generate_and_list_images.py` (combined
  create-and-list handler), embedded in namespace `GenerateAndListImages`;
* `src/image-generator/lambda/generate_image.py` (standalone create
  handler), embedded in namespace `GenerateImagePy`.

External collaborators (the Bedrock model endpoint, S3, `json.loads`,
`base64.b64decode`, `uuid.uuid4`) are modelled as an explicit `Effects`
record of oracles; each handler is a pure function of the environment
(`Env`, the environment variables read at cold start), the oracles and the
incoming API-Gateway event, returning the response envelope together with
the trace of external calls it performed.
-/

namespace ImageGen

/-- Python exception classes that the library calls made by this code can
raise.  Every one of them derives from Python's `Exception` class (as
opposed to a bare `BaseException`). -/
inductive ExcClass
  | typeError
  | valueError
  | attributeError
  | jsonDecodeError
  | keyError
  | botoClientError
  | genericError
  deriving DecidableEq

/-- Whether the class derives from Python's `Exception` (this is what the
clause `except Exception` matches).  In Python's class hierarchy every
class above does. -/
def ExcClass.derivesFromException : ExcClass → Bool
  | .typeError => true
  | .valueError => true
  | .attributeError => true
  | .jsonDecodeError => true
  | .keyError => true
  | .botoClientError => true
  | .genericError => true

/-- A raised Python exception: its class and its `str(e)` rendering. -/
structure PyExc where
  cls : ExcClass
  msg : String
  deriving DecidableEq

/-- Python values as produced by `json.loads`. -/
inductive PyVal
  | vnone
  | vbool (b : Bool)
  | vint (n : Int)
  | vstr (s : String)
  | vlist (xs : List PyVal)
  | vdict (d : List (String × PyVal))

/-- Python truthiness (`not x` is `!truthy x`). -/
def truthy : PyVal → Bool
  | .vnone => false
  | .vbool b => b
  | .vint n => n != 0
  | .vstr s => !s.isEmpty
  | .vlist xs => !xs.isEmpty
  | .vdict d => !d.isEmpty

/-- `v.get(k)`: only dicts have a `.get` method; on any other value Python
raises an `AttributeError`.  A missing key yields Python `None`. -/
def pyDictGet (v : PyVal) (k : String) : Except PyExc PyVal :=
  match v with
  | .vdict d => .ok ((d.lookup k).getD .vnone)
  | _ => .error ⟨.attributeError, ("object has no attribute get")⟩

/-- One entry of an S3 `list_objects_v2` response's `Contents` array:
the object key and its `LastModified` timestamp (modelled as a `Nat`). -/
structure S3Obj where
  key : String
  lastModified : Nat
  deriving DecidableEq

/-- The incoming API-Gateway event, restricted to the fields the handlers
read.  `body = none` models an event without a `body` key (so
`event.get('body', '{}')` yields the default), `body = some none` models
`body: null`, and `body = some (some s)` a string body `s`. -/
structure Event where
  httpMethod : Option String
  body : Option (Option String)

/-- The environment variables read at cold start:
`S3_BUCKET_NAME` and `YOUR_NAME`, each possibly unset. -/
structure Env where
  bucket : Option String
  yourName : Option String

/-- Python falsiness of an optional environment variable:
`not X` is true when the variable is unset (`None`) or empty. -/
def falsyOpt : Option String → Bool
  | none => true
  | some s => s.isEmpty

/-- How a Python f-string renders a possibly-`None` variable. -/
def pyStrOfOpt : Option String → String
  | none => ("None")
  | some s => s

/-- Trace marker for an external call performed by a handler. -/
inductive ExtCall
  | model
  | put
  | list
  deriving DecidableEq

/-- Oracles for the external collaborators.  `invokeModel` folds the whole
Bedrock pipeline (invoke_model, reading the streaming body, `json.loads`,
extracting `['images'][0]`, and — in the standalone handler — the ASCII
encode) into one call returning the base64 payload or the raised
exception.  `jsonParse` models `json.loads` on strings, `b64decode` models
`base64.b64decode`, `putObject`/`listObjects` model the S3 client, and
`freshUuid` is the 128-bit value produced by `uuid.uuid4()`. -/
structure Effects where
  jsonParse : String → Except PyExc PyVal
  invokeModel : PyVal → Except PyExc String
  b64decode : String → Except PyExc (List Nat)
  putObject : Option String → String → List Nat → Except PyExc Unit
  listObjects : Option String → String → Except PyExc (Option (List S3Obj))
  freshUuid : Nat

/-- Body of a response after `json.dumps`, kept structural. -/
inductive RespBody
  | message (s : String)
  | imageUrl (u : String)
  | images (urls : List String)
  deriving DecidableEq

/-- The response envelope both handlers return. -/
structure Response where
  statusCode : Nat
  headers : List (String × String)
  body : RespBody
  deriving DecidableEq

/-- CORS headers of the combined handler (module-level constant). -/
def corsCombined : List (String × String) :=
  [(("Access-Control-Allow-Origin"), ("*")),
   (("Access-Control-Allow-Headers"),
    ("Content-Type,X-Amz-Date,Authorization,X-Api-Key,X-Amz-Security-Token")),
   (("Access-Control-Allow-Methods"), ("OPTIONS,GET,POST"))]

/-- CORS headers defined inside the standalone handler. -/
def corsStandalone : List (String × String) :=
  [(("Access-Control-Allow-Origin"), ("*")),
   (("Access-Control-Allow-Headers"),
    ("Content-Type,X-Amz-Date,Authorization,X-Api-Key,X-Amz-Security-Token")),
   (("Access-Control-Allow-Methods"), ("OPTIONS,POST"))]

/-- Lower-case hex digit for a nibble, as `'%x'` formatting renders it
(for values below 16 this coincides with `Nat.digitChar`). -/
def hexDigitChar (d : Nat) : Char := Nat.digitChar d

/-- `k` low-order hex digits of `n`, zero padded (Python `'%0kx' % n`). -/
def hexChars : Nat → Nat → List Char
  | _, 0 => []
  | n, k + 1 => hexChars (n / 16) k ++ [hexDigitChar (n % 16)]

/-- Characters of `str(uuid.UUID(int = n))`: the 32 zero-padded hex digits
of the 128-bit value, hyphenated in 8-4-4-4-12 groups. -/
def uuidChars (n : Nat) : List Char :=
  let h := hexChars (n % 2 ^ 128) 32
  h.take 8 ++ '-' :: (h.drop 8).take 4 ++ '-' :: (h.drop 12).take 4
    ++ '-' :: (h.drop 16).take 4 ++ '-' :: h.drop 20

/-- `str(uuid.uuid4())` for the drawn 128-bit value `n`. -/
def uuidStr (n : Nat) : String := String.mk (uuidChars n)

/-- The object key `f"generated-images/\x7buuid.uuid4()\x7d.png"`. -/
def imageKeyOf (n : Nat) : String :=
  ("generated-images/") ++ uuidStr n ++ (".png")

/-- The public URL `f"https://\x7bYOUR_NAME\x7d.mixtli.cloud/\x7bkey\x7d"`,
identical in both files. -/
def publicUrl (env : Env) (key : String) : String :=
  ("https://") ++ pyStrOfOpt env.yourName ++ (".mixtli.cloud/") ++ key

/-- `event.get('body', '{}')` as passed to `json.loads`: an absent key
yields the default string, a `null` body makes `json.loads` raise a
`TypeError`, a string body is passed through. -/
def rawBody (ev : Event) : Except PyExc String :=
  match ev.body with
  | none => .ok ("\x7b\x7d")
  | some none =>
      .error ⟨.typeError,
        ("the JSON object must be str, bytes or bytearray, not NoneType")⟩
  | some (some s) => .ok s

/-- `json.loads(event.get('body', '{}'))`. -/
def loadBody (eff : Effects) (ev : Event) : Except PyExc PyVal :=
  (rawBody ev).bind eff.jsonParse

/-- `json.loads(event.get('body', '{}')).get('prompt')`: the two
statements both handlers run inside their first try block. -/
def getPrompt (eff : Effects) (ev : Event) : Except PyExc PyVal :=
  (loadBody eff ev).bind (fun v => pyDictGet v ("prompt"))

/-- Stable insertion of `x` into a list already sorted by `LastModified`
descending, placing `x` after every strictly more recent element. -/
def insertByLM (x : S3Obj) : List S3Obj → List S3Obj
  | [] => [x]
  | y :: ys =>
      if x.lastModified < y.lastModified then y :: insertByLM x ys
      else x :: y :: ys

/-- `sorted(contents, key = lambda obj: obj['LastModified'],
reverse = True)`: stable sort by `LastModified`, newest first. -/
def sortByLMDesc : List S3Obj → List S3Obj
  | [] => []
  | x :: xs => insertByLM x (sortByLMDesc xs)

namespace GenerateAndListImages

/-- `upload_to_s3` of the combined file: decodes the base64 payload,
derives the object key, writes the object and returns the public URL;
paired with the external calls it performed before returning or raising. -/
def upload_to_s3 (env : Env) (eff : Effects) (base64Image : String) :
    Except PyExc String × List ExtCall :=
  match eff.b64decode base64Image with
  | .error e => (.error e, [])
  | .ok imageData =>
      match eff.putObject env.bucket (imageKeyOf eff.freshUuid) imageData with
      | .error e => (.error e, [.put])
      | .ok _ => (.ok (publicUrl env (imageKeyOf eff.freshUuid)), [.put])

/-- `generate_image` of the combined file: one Bedrock invocation. -/
def generate_image (eff : Effects) (prompt : PyVal) :
    Except PyExc String × List ExtCall :=
  (eff.invokeModel prompt, [.model])

/-- `list_images` of the combined file: lists the bucket under the fixed
key root, sorts newest first, drops folder markers, maps to public URLs;
any exception from the S3 call is swallowed, leaving the accumulator
empty. -/
def list_images (env : Env) (eff : Effects) : List String × List ExtCall :=
  match eff.listObjects env.bucket ("generated-images/") with
  | .error _ => ([], [.list])
  | .ok none => ([], [.list])
  | .ok (some contents) =>
      ((((sortByLMDesc contents).filter
          (fun o => !o.key.endsWith ("/"))).map
            (fun o => publicUrl env o.key)), [.list])

/-- `lambda_handler` of `generate_and_list_images.py`. -/
def lambda_handler (env : Env) (eff : Effects) (ev : Event) :
    Response × List ExtCall :=
  if falsyOpt env.bucket = true then
    (⟨500, corsCombined,
      .message ("S3_BUCKET_NAME environment variable is not set.")⟩, [])
  else if ev.httpMethod = some ("POST") then
    match getPrompt eff ev with
    | .error e =>
        (⟨500, corsCombined,
          .message (("Error generating image: ") ++ e.msg)⟩, [])
    | .ok promptVal =>
        if truthy promptVal = false then
          (⟨400, corsCombined, .message ("Prompt is required.")⟩, [])
        else
          match generate_image eff promptVal with
          | (.error e, calls) =>
              (⟨500, corsCombined,
                .message (("Error generating image: ") ++ e.msg)⟩, calls)
          | (.ok base64Image, calls) =>
              match upload_to_s3 env eff base64Image with
              | (.error e, calls2) =>
                  (⟨500, corsCombined,
                    .message (("Error generating image: ") ++ e.msg)⟩,
                   calls ++ calls2)
              | (.ok imageUrl, calls2) =>
                  (⟨200, corsCombined, .imageUrl imageUrl⟩, calls ++ calls2)
  else if ev.httpMethod = some ("GET") then
    match list_images env eff with
    | (imageUrls, calls) =>
        (⟨200, corsCombined, .images imageUrls⟩, calls)
  else
    (⟨405, corsCombined, .message ("Method Not Allowed")⟩, [])

end GenerateAndListImages

namespace GenerateImagePy

/-- Marker for the crash (a `NameError`) that would occur if control ever
reached the dead `except ClientError` / `except ImageError` clauses, whose
guard expressions name undefined identifiers. -/
inductive Crash
  | nameErrorInDeadClause
  deriving DecidableEq

/-- `lambda_handler` of `generate_image.py`.  Stage 1 validates the input
(and turns a missing `S3_BUCKET_NAME` / `YOUR_NAME` into a `ValueError`
caught by the same `except`); stage 2 invokes Bedrock, whose `except`
chain starts with a blanket `except Exception` followed by two clauses
naming undefined identifiers (reaching them would raise a `NameError`,
modelled as `.error`); stage 3 decodes and uploads; stage 4 returns the
URL. -/
def lambda_handler (env : Env) (eff : Effects) (ev : Event) :
    Except Crash (Response × List ExtCall) :=
  match getPrompt eff ev with
  | .error e =>
      .ok (⟨400, corsStandalone,
        .message (("Invalid request body: ") ++ e.msg)⟩, [])
  | .ok promptVal =>
      if truthy promptVal = false then
        .ok (⟨400, corsStandalone, .message ("Prompt is required.")⟩, [])
      else if falsyOpt env.bucket = true then
        .ok (⟨400, corsStandalone,
          .message (("Invalid request body: ")
            ++ ("S3_BUCKET_NAME environment variable is not set."))⟩, [])
      else if falsyOpt env.yourName = true then
        .ok (⟨400, corsStandalone,
          .message (("Invalid request body: ")
            ++ ("YOUR_NAME environment variable is not set."))⟩, [])
      else
        match eff.invokeModel promptVal with
        | .error e =>
            if e.cls.derivesFromException = true then
              .ok (⟨500, corsStandalone,
                .message (("Error generating image: ") ++ e.msg)⟩, [.model])
            else
              .error .nameErrorInDeadClause
        | .ok base64Image =>
            match eff.b64decode base64Image with
            | .error e =>
                .ok (⟨500, corsStandalone,
                  .message (("Error saving image: ") ++ e.msg)⟩, [.model])
            | .ok imageData =>
                match eff.putObject env.bucket (imageKeyOf eff.freshUuid)
                    imageData with
                | .error e =>
                    .ok (⟨500, corsStandalone,
                      .message (("Error saving image: ") ++ e.msg)⟩,
                      [.model, .put])
                | .ok _ =>
                    .ok (⟨200, corsStandalone,
                      .imageUrl (publicUrl env (imageKeyOf eff.freshUuid))⟩,
                      [.model, .put])

end GenerateImagePy

/-- Concrete `json.loads` oracle used in the concrete test scenarios:
it parses the two request bodies those scenarios send and fails on
everything else with a decode error. -/
def parseFixture : String → Except PyExc PyVal := fun s =>
  if s = ("\x7b\"prompt\": \"cat\"\x7d") then
    .ok (.vdict [(("prompt"), .vstr ("cat"))])
  else if s = ("\x7b\"prompt\": \"\"\x7d") then
    .ok (.vdict [(("prompt"), .vstr (""))])
  else
    .error ⟨.jsonDecodeError, ("Expecting value: line 1 column 1 (char 0)")⟩

/-- Concrete oracle record where every external call succeeds. -/
def effOk : Effects where
  jsonParse := parseFixture
  invokeModel := fun _ => .ok ("aW1hZ2U=")
  b64decode := fun _ => .ok [105, 109, 97, 103, 101]
  putObject := fun _ _ _ => .ok ()
  listObjects := fun _ _ =>
    .ok (some [⟨("generated-images/a.png"), 5⟩, ⟨("generated-images/"), 9⟩,
               ⟨("generated-images/b.png"), 7⟩])
  freshUuid := 0

/-- Oracle record whose S3 write fails. -/
def effPutFail : Effects :=
  { effOk with putObject := (fun _ _ _ =>
      .error ⟨.botoClientError, ("AccessDenied")⟩) }

/-- Oracle record whose `json.loads` always fails. -/
def effParseFail : Effects :=
  { effOk with jsonParse := (fun _ =>
      .error ⟨.jsonDecodeError, ("Expecting value")⟩) }

/-- Oracle record whose S3 listing fails. -/
def effListFail : Effects :=
  { effOk with listObjects := (fun _ _ =>
      .error ⟨.botoClientError, ("AccessDenied")⟩) }

/-- Fully configured environment. -/
def envFull : Env := ⟨some ("bucket-1"), some ("alice")⟩

/-- Environment with `S3_BUCKET_NAME` unset. -/
def envNoBucket : Env := ⟨none, some ("alice")⟩

/-- POST event with a well-formed body carrying a non-empty prompt. -/
def evPostCat : Event :=
  ⟨some ("POST"), some (some ("\x7b\"prompt\": \"cat\"\x7d"))⟩

/-- POST event whose body carries an empty prompt. -/
def evPostEmptyPrompt : Event :=
  ⟨some ("POST"), some (some ("\x7b\"prompt\": \"\"\x7d"))⟩

/-- GET event without a body. -/
def evGet : Event := ⟨some ("GET"), none⟩

/-- Event with an unsupported HTTP method. -/
def evPut : Event := ⟨some ("PUT"), none⟩

/-- Ordering of stored objects by descending recency: `a` is at least as
recent as `b`. -/
def newestFirst (a b : S3Obj) : Prop :=
  b.lastModified ≤ a.lastModified

/-- The sixteen lower-case hexadecimal digits. -/
def hexAlphabet : List Char :=
  String.data ("0123456789abcdef")

/-- A syntactically valid canonical UUID string: five hyphen-separated
groups of 8, 4, 4, 4 and 12 lower-case hex digits. -/
def validUuid (s : String) : Prop :=
  ∃ a b c d e : List Char,
    a.length = 8 ∧ b.length = 4 ∧ c.length = 4 ∧ d.length = 4
    ∧ e.length = 12
    ∧ (∀ ch ∈ a ++ b ++ c ++ d ++ e, ch ∈ hexAlphabet)
    ∧ s.data = a ++ '-' :: b ++ '-' :: c ++ '-' :: d ++ '-' :: e

end ImageGen

/-! Helper lemmas about the embedded auxiliary functions. -/

namespace ImageGen

theorem derivesFromException_true (c : ExcClass) :
    c.derivesFromException = true := by
  cases c <;> rfl

theorem mem_insertByLM (x a : S3Obj) (l : List S3Obj)
    (h : a ∈ insertByLM x l) : a = x ∨ a ∈ l := by
  induction l with
  | nil =>
      simp [insertByLM] at h
      exact Or.inl h
  | cons y ys ih =>
      rw [insertByLM] at h
      by_cases hlt : x.lastModified < y.lastModified
      · rw [if_pos hlt] at h
        rcases List.mem_cons.mp h with rfl | h2
        · exact Or.inr (List.mem_cons_self _ _)
        · rcases ih h2 with h3 | h3
          · exact Or.inl h3
          · exact Or.inr (List.mem_cons_of_mem _ h3)
      · rw [if_neg hlt] at h
        rcases List.mem_cons.mp h with rfl | h2
        · exact Or.inl rfl
        · exact Or.inr h2

theorem pairwise_insertByLM (x : S3Obj) (l : List S3Obj)
    (h : l.Pairwise newestFirst) :
    (insertByLM x l).Pairwise newestFirst := by
  induction l with
  | nil => simp [insertByLM]
  | cons y ys ih =>
      rcases List.pairwise_cons.mp h with ⟨hy, hys⟩
      rw [insertByLM]
      by_cases hlt : x.lastModified < y.lastModified
      · rw [if_pos hlt]
        refine List.pairwise_cons.mpr ⟨?_, ih hys⟩
        intro z hz
        rcases mem_insertByLM x z ys hz with rfl | hzys
        · exact Nat.le_of_lt hlt
        · exact hy z hzys
      · rw [if_neg hlt]
        refine List.pairwise_cons.mpr ⟨?_, h⟩
        intro z hz
        rcases List.mem_cons.mp hz with rfl | hzys
        · exact Nat.le_of_not_lt hlt
        · exact Nat.le_trans (hy z hzys) (Nat.le_of_not_lt hlt)

theorem pairwise_sortByLMDesc (l : List S3Obj) :
    (sortByLMDesc l).Pairwise newestFirst := by
  induction l with
  | nil => simp [sortByLMDesc]
  | cons x xs ih => exact pairwise_insertByLM x _ ih

theorem perm_insertByLM (x : S3Obj) (l : List S3Obj) :
    List.Perm (insertByLM x l) (x :: l) := by
  induction l with
  | nil => exact List.Perm.refl _
  | cons y ys ih =>
      rw [insertByLM]
      by_cases hlt : x.lastModified < y.lastModified
      · rw [if_pos hlt]
        exact List.Perm.trans (List.Perm.cons y ih) (List.Perm.swap x y ys)
      · rw [if_neg hlt]

theorem perm_sortByLMDesc (l : List S3Obj) :
    List.Perm (sortByLMDesc l) l := by
  induction l with
  | nil => exact List.Perm.refl _
  | cons x xs ih =>
      rw [sortByLMDesc]
      exact List.Perm.trans (perm_insertByLM x (sortByLMDesc xs))
        (List.Perm.cons x ih)

theorem length_hexChars (k : Nat) : ∀ n, (hexChars n k).length = k := by
  induction k with
  | zero => intro n; rfl
  | succ k ih =>
      intro n
      rw [hexChars]
      simp [ih]

theorem hexDigitChar_mem (d : Nat) (hd : d < 16) :
    hexDigitChar d ∈ hexAlphabet := by
  unfold hexDigitChar
  interval_cases d <;> decide

theorem mem_hexChars (k : Nat) :
    ∀ n c, c ∈ hexChars n k → c ∈ hexAlphabet := by
  induction k with
  | zero => intro n c h; simp [hexChars] at h
  | succ k ih =>
      intro n c h
      rw [hexChars] at h
      rcases List.mem_append.mp h with h1 | h2
      · exact ih _ _ h1
      · rcases List.mem_singleton.mp h2 with rfl
        exact hexDigitChar_mem _ (Nat.mod_lt _ (by omega))

theorem validUuid_mk (h : List Char) (hlen : h.length = 32)
    (hhex : ∀ c ∈ h, c ∈ hexAlphabet) :
    validUuid (String.mk (h.take 8 ++ '-' :: (h.drop 8).take 4
      ++ '-' :: (h.drop 12).take 4 ++ '-' :: (h.drop 16).take 4
      ++ '-' :: h.drop 20)) := by
  refine ⟨h.take 8, (h.drop 8).take 4, (h.drop 12).take 4,
          (h.drop 16).take 4, h.drop 20, ?_, ?_, ?_, ?_, ?_, ?_, ?_⟩
  · simp [List.length_take, hlen]
  · simp [List.length_take, List.length_drop, hlen]
  · simp [List.length_take, List.length_drop, hlen]
  · simp [List.length_take, List.length_drop, hlen]
  · simp [List.length_drop, hlen]
  · intro ch hch
    have hmem : ch ∈ h := by
      rcases List.mem_append.mp hch with h1 | h1
      · rcases List.mem_append.mp h1 with h2 | h2
        · rcases List.mem_append.mp h2 with h3 | h3
          · rcases List.mem_append.mp h3 with h4 | h4
            · exact List.take_subset _ _ h4
            · exact List.drop_subset _ _ (List.take_subset _ _ h4)
          · exact List.drop_subset _ _ (List.take_subset _ _ h3)
        · exact List.drop_subset _ _ (List.take_subset _ _ h2)
      · exact List.drop_subset _ _ h1
    exact hhex ch hmem
  · rfl

theorem validUuid_uuidStr (n : Nat) : validUuid (uuidStr n) :=
  validUuid_mk (hexChars (n % 2 ^ 128) 32) (length_hexChars 32 _)
    (mem_hexChars 32 _)

end ImageGen

/-! Claims. -/

namespace ImageGen

/-- Claim C1 counterexample: with `S3_BUCKET_NAME` unset, the standalone
create handler answers a well-formed create request with status 400
(`"Invalid request body: S3_BUCKET_NAME environment variable is not
set."`), not 500, though indeed before any external call. -/
theorem C1_counterexample :
    GenerateImagePy.lambda_handler envNoBucket effOk evPostCat
      = .ok (⟨400, corsStandalone,
          .message (("Invalid request body: ")
            ++ ("S3_BUCKET_NAME environment variable is not set."))⟩, [])
    ∧ falsyOpt envNoBucket.bucket = true :=
  ⟨rfl, rfl⟩

/-- Claim C1 (amended): if `S3_BUCKET_NAME` is unset or empty, every
request short-circuits before any external call; the combined handler
returns 500 with the fixed configuration message, while the standalone
create handler returns a 400 response. -/
theorem C1_amended (env : Env) (eff : Effects) (ev : Event)
    (hb : falsyOpt env.bucket = true) :
    GenerateAndListImages.lambda_handler env eff ev
      = (⟨500, corsCombined,
          .message ("S3_BUCKET_NAME environment variable is not set.")⟩, [])
    ∧ ∃ r : Response,
        GenerateImagePy.lambda_handler env eff ev = .ok (r, [])
        ∧ r.statusCode = 400 := by
  constructor
  · simp [GenerateAndListImages.lambda_handler, hb]
  · rcases hg : getPrompt eff ev with e | pv
    · exact ⟨⟨400, corsStandalone,
        .message (("Invalid request body: ") ++ e.msg)⟩,
        by simp [GenerateImagePy.lambda_handler, hg], rfl⟩
    · cases ht : truthy pv with
      | false =>
          exact ⟨⟨400, corsStandalone, .message ("Prompt is required.")⟩,
            by simp [GenerateImagePy.lambda_handler, hg, ht], rfl⟩
      | true =>
          exact ⟨⟨400, corsStandalone,
            .message (("Invalid request body: ")
              ++ ("S3_BUCKET_NAME environment variable is not set."))⟩,
            by simp [GenerateImagePy.lambda_handler, hg, ht, hb], rfl⟩

/-- Claim C1 witness: the amended statement at a concrete unconfigured
environment and request. -/
theorem C1_witness :
    GenerateAndListImages.lambda_handler envNoBucket effOk evGet
      = (⟨500, corsCombined,
          .message ("S3_BUCKET_NAME environment variable is not set.")⟩, [])
    ∧ ∃ r : Response,
        GenerateImagePy.lambda_handler envNoBucket effOk evGet = .ok (r, [])
        ∧ r.statusCode = 400 :=
  C1_amended envNoBucket effOk evGet (by decide)

/-- Claim C2 counterexample: in the combined handler a create request
whose generation succeeds but whose storage write fails yields a 500 whose
message begins with `"Error generating image:"`, not
`"Error saving image:"`. -/
theorem C2_counterexample :
    GenerateAndListImages.lambda_handler envFull effPutFail evPostCat
      = (⟨500, corsCombined,
          .message ("Error generating image: AccessDenied")⟩,
         [.model, .put])
    ∧ List.isPrefixOf (String.data ("Error saving image:"))
        (String.data ("Error generating image: AccessDenied")) = false :=
  ⟨rfl, by decide⟩

/-- Claim C2 (amended): when generation succeeds and the storage step
(base64 decode or object-store write) fails, the standalone create handler
returns 500 with a message prefixed `"Error saving image: "`, distinct
from the `"Error generating image: "` prefix used for model failures; the
combined handler instead reports such failures with the
`"Error generating image: "` prefix. -/
theorem C2_amended (env : Env) (eff : Effects) (ev : Event) (pv : PyVal)
    (b64 : String)
    (hm : ev.httpMethod = some ("POST"))
    (hp : getPrompt eff ev = .ok pv)
    (ht : truthy pv = true)
    (hb : falsyOpt env.bucket = false)
    (hn : falsyOpt env.yourName = false)
    (hinv : eff.invokeModel pv = .ok b64)
    (hstore : (∃ e, eff.b64decode b64 = .error e)
      ∨ (∃ bytes e, eff.b64decode b64 = .ok bytes
          ∧ eff.putObject env.bucket (imageKeyOf eff.freshUuid) bytes
              = .error e)) :
    (∃ e calls, GenerateImagePy.lambda_handler env eff ev
        = .ok (⟨500, corsStandalone,
            .message (("Error saving image: ") ++ PyExc.msg e)⟩, calls))
    ∧ (∃ e calls, GenerateAndListImages.lambda_handler env eff ev
        = (⟨500, corsCombined,
            .message (("Error generating image: ") ++ PyExc.msg e)⟩,
           calls)) := by
  rcases hstore with ⟨e, hd⟩ | ⟨bytes, e, hd, hput⟩
  · constructor
    · exact ⟨e, [.model],
        by simp [GenerateImagePy.lambda_handler, hp, ht, hb, hn, hinv, hd]⟩
    · exact ⟨e, [.model],
        by simp [GenerateAndListImages.lambda_handler,
          GenerateAndListImages.generate_image,
          GenerateAndListImages.upload_to_s3, hm, hp, ht, hb, hinv, hd]⟩
  · constructor
    · exact ⟨e, [.model, .put],
        by simp [GenerateImagePy.lambda_handler, hp, ht, hb, hn, hinv, hd,
          hput]⟩
    · exact ⟨e, [.model, .put],
        by simp [GenerateAndListImages.lambda_handler,
          GenerateAndListImages.generate_image,
          GenerateAndListImages.upload_to_s3, hm, hp, ht, hb, hinv, hd,
          hput]⟩

/-- Claim C2 witness: the amended statement at a concrete request whose
S3 write fails after successful generation. -/
theorem C2_witness :
    (∃ e calls, GenerateImagePy.lambda_handler envFull effPutFail evPostCat
        = .ok (⟨500, corsStandalone,
            .message (("Error saving image: ") ++ PyExc.msg e)⟩, calls))
    ∧ (∃ e calls,
        GenerateAndListImages.lambda_handler envFull effPutFail evPostCat
        = (⟨500, corsCombined,
            .message (("Error generating image: ") ++ PyExc.msg e)⟩,
           calls)) :=
  C2_amended envFull effPutFail evPostCat (.vstr ("cat")) ("aW1hZ2U=")
    rfl rfl rfl (by decide) (by decide) rfl
    (Or.inr ⟨[105, 109, 97, 103, 101],
      ⟨.botoClientError, ("AccessDenied")⟩, rfl, rfl⟩)

end ImageGen

namespace ImageGen

/-- Claim C3 counterexample: the combined handler answers a create request
with an unparseable body with status 500 (`"Error generating image:
<detail>"`), not 400. -/
theorem C3_counterexample :
    GenerateAndListImages.lambda_handler envFull effParseFail evPostCat
      = (⟨500, corsCombined,
          .message ("Error generating image: Expecting value")⟩, [])
    ∧ getPrompt effParseFail evPostCat
        = .error ⟨.jsonDecodeError, ("Expecting value")⟩ :=
  ⟨rfl, rfl⟩

/-- Claim C3 (amended): a create request whose body cannot be parsed as
the expected JSON object yields 400 `"Invalid request body: <detail>"`
from the standalone create handler, but 500 `"Error generating image:
<detail>"` from the combined handler. -/
theorem C3_amended (env : Env) (eff : Effects) (ev : Event) (e : PyExc)
    (h : getPrompt eff ev = .error e)
    (hm : ev.httpMethod = some ("POST"))
    (hb : falsyOpt env.bucket = false) :
    GenerateImagePy.lambda_handler env eff ev
      = .ok (⟨400, corsStandalone,
          .message (("Invalid request body: ") ++ PyExc.msg e)⟩, [])
    ∧ GenerateAndListImages.lambda_handler env eff ev
      = (⟨500, corsCombined,
          .message (("Error generating image: ") ++ PyExc.msg e)⟩, []) := by
  constructor
  · simp [GenerateImagePy.lambda_handler, h]
  · simp [GenerateAndListImages.lambda_handler, h, hm, hb]

/-- Claim C3 witness: the amended statement at a concrete malformed
request. -/
theorem C3_witness :
    GenerateImagePy.lambda_handler envFull effParseFail evPostCat
      = .ok (⟨400, corsStandalone,
          .message (("Invalid request body: ")
            ++ PyExc.msg ⟨.jsonDecodeError, ("Expecting value")⟩)⟩, [])
    ∧ GenerateAndListImages.lambda_handler envFull effParseFail evPostCat
      = (⟨500, corsCombined,
          .message (("Error generating image: ")
            ++ PyExc.msg ⟨.jsonDecodeError, ("Expecting value")⟩)⟩, []) :=
  C3_amended envFull effParseFail evPostCat
    ⟨.jsonDecodeError, ("Expecting value")⟩ rfl rfl (by decide)

/-- Claim C4 counterexample: with `S3_BUCKET_NAME` unset, the combined
handler answers a create request carrying an empty prompt with the 500
configuration response, not 400 `"Prompt is required."`. -/
theorem C4_counterexample :
    GenerateAndListImages.lambda_handler envNoBucket effOk evPostEmptyPrompt
      = (⟨500, corsCombined,
          .message ("S3_BUCKET_NAME environment variable is not set.")⟩, [])
    ∧ getPrompt effOk evPostEmptyPrompt = .ok (.vstr (""))
    ∧ truthy (.vstr ("")) = false :=
  ⟨rfl, rfl, rfl⟩

/-- Claim C4 (amended): for a create request whose prompt is absent or
empty, provided the storage-location configuration is set, both handlers
return 400 `"Prompt is required."` and make no external call (without the
bucket configuration the combined handler returns its 500 configuration
response instead, still before any external call). -/
theorem C4_amended (env : Env) (eff : Effects) (ev : Event) (pv : PyVal)
    (hp : getPrompt eff ev = .ok pv)
    (ht : truthy pv = false)
    (hm : ev.httpMethod = some ("POST"))
    (hb : falsyOpt env.bucket = false) :
    GenerateAndListImages.lambda_handler env eff ev
      = (⟨400, corsCombined, .message ("Prompt is required.")⟩, [])
    ∧ GenerateImagePy.lambda_handler env eff ev
      = .ok (⟨400, corsStandalone, .message ("Prompt is required.")⟩, []) := by
  constructor
  · simp [GenerateAndListImages.lambda_handler, hp, ht, hm, hb]
  · simp [GenerateImagePy.lambda_handler, hp, ht]

/-- Claim C4 witness: the amended statement at a concrete empty-prompt
request. -/
theorem C4_witness :
    GenerateAndListImages.lambda_handler envFull effOk evPostEmptyPrompt
      = (⟨400, corsCombined, .message ("Prompt is required.")⟩, [])
    ∧ GenerateImagePy.lambda_handler envFull effOk evPostEmptyPrompt
      = .ok (⟨400, corsStandalone, .message ("Prompt is required.")⟩, []) :=
  C4_amended envFull effOk evPostEmptyPrompt (.vstr ("")) rfl rfl rfl
    (by decide)

/-- Claim C5: when the object store returns `contents`, the listing
result is the URL-image of a permutation of exactly the non-marker
entries of `contents`, ordered by those entries' own last-modified
timestamps descending, and no key ending in the path separator appears. -/
theorem C5_listing_order (env : Env) (eff : Effects)
    (contents : List S3Obj)
    (h : eff.listObjects env.bucket ("generated-images/")
      = .ok (some contents)) :
    ∃ objs : List S3Obj,
      List.Perm objs (contents.filter (fun o => !o.key.endsWith ("/")))
      ∧ (GenerateAndListImages.list_images env eff).1
          = objs.map (fun o => publicUrl env o.key)
      ∧ objs.Pairwise newestFirst
      ∧ ∀ o ∈ objs, o.key.endsWith ("/") = false := by
  refine ⟨(sortByLMDesc contents).filter
      (fun o => !o.key.endsWith ("/")), ?_, ?_, ?_, ?_⟩
  · exact List.Perm.filter _ (perm_sortByLMDesc contents)
  · simp [GenerateAndListImages.list_images, h]
  · exact List.Pairwise.sublist (List.filter_sublist _)
      (pairwise_sortByLMDesc contents)
  · intro o ho
    simpa using (List.mem_filter.mp ho).2

/-- Claim C5 witness: the listing shape at a concrete store content
containing a directory marker and two images listed out of order. -/
theorem C5_witness :
    ∃ objs : List S3Obj,
      List.Perm objs
        (List.filter (fun o => !o.key.endsWith ("/"))
          [⟨("generated-images/a.png"), 5⟩, ⟨("generated-images/"), 9⟩,
           ⟨("generated-images/b.png"), 7⟩])
      ∧ (GenerateAndListImages.list_images envFull effOk).1
          = objs.map (fun o => publicUrl envFull o.key)
      ∧ objs.Pairwise newestFirst
      ∧ ∀ o ∈ objs, o.key.endsWith ("/") = false :=
  C5_listing_order envFull effOk
    [⟨("generated-images/a.png"), 5⟩, ⟨("generated-images/"), 9⟩,
     ⟨("generated-images/b.png"), 7⟩] rfl

/-- Claim C6: when the object-store enumeration fails, `list_images`
returns the empty sequence and a GET request still succeeds with 200 and
an empty image list; the exception never escapes. -/
theorem C6_list_swallows (env : Env) (eff : Effects) (ev : Event)
    (e : PyExc)
    (hl : eff.listObjects env.bucket ("generated-images/") = .error e)
    (hb : falsyOpt env.bucket = false)
    (hm : ev.httpMethod = some ("GET")) :
    (GenerateAndListImages.list_images env eff).1 = []
    ∧ GenerateAndListImages.lambda_handler env eff ev
      = (⟨200, corsCombined, .images []⟩, [.list]) := by
  constructor
  · simp [GenerateAndListImages.list_images, hl]
  · simp [GenerateAndListImages.lambda_handler,
      GenerateAndListImages.list_images, hl, hb, hm]

/-- Claim C6 witness: the swallowing behaviour at a concrete failing
enumeration. -/
theorem C6_witness :
    (GenerateAndListImages.list_images envFull effListFail).1 = []
    ∧ GenerateAndListImages.lambda_handler envFull effListFail evGet
      = (⟨200, corsCombined, .images []⟩, [.list]) :=
  C6_list_swallows envFull effListFail evGet
    ⟨.botoClientError, ("AccessDenied")⟩ rfl (by decide) rfl

end ImageGen

namespace ImageGen

/-- Claim C7: every successful create request returns a URL whose host is
the one derived from the configured public name and whose path is the
fixed key root `"generated-images/"` followed by a syntactically valid
UUID followed by `".png"`; this holds in both handlers. -/
theorem C7_success_url (env : Env) (eff : Effects) (ev : Event)
    (pv : PyVal) (b64 : String) (bytes : List Nat) (name : String)
    (hm : ev.httpMethod = some ("POST"))
    (hp : getPrompt eff ev = .ok pv)
    (ht : truthy pv = true)
    (hb : falsyOpt env.bucket = false)
    (hn : env.yourName = some name)
    (hne : name.isEmpty = false)
    (hinv : eff.invokeModel pv = .ok b64)
    (hdec : eff.b64decode b64 = .ok bytes)
    (hput : eff.putObject env.bucket (imageKeyOf eff.freshUuid) bytes
        = .ok ()) :
    GenerateAndListImages.lambda_handler env eff ev
      = (⟨200, corsCombined,
          .imageUrl (publicUrl env (imageKeyOf eff.freshUuid))⟩,
         [.model, .put])
    ∧ GenerateImagePy.lambda_handler env eff ev
      = .ok (⟨200, corsStandalone,
          .imageUrl (publicUrl env (imageKeyOf eff.freshUuid))⟩,
         [.model, .put])
    ∧ publicUrl env (imageKeyOf eff.freshUuid)
      = ("https://") ++ name ++ (".mixtli.cloud/")
        ++ (("generated-images/") ++ uuidStr eff.freshUuid ++ (".png"))
    ∧ validUuid (uuidStr eff.freshUuid) := by
  have hfn : falsyOpt (some name) = false := hne
  refine ⟨?_, ?_, ?_, validUuid_uuidStr _⟩
  · simp [GenerateAndListImages.lambda_handler,
      GenerateAndListImages.generate_image,
      GenerateAndListImages.upload_to_s3, hm, hp, ht, hb, hinv, hdec, hput]
  · simp [GenerateImagePy.lambda_handler, hp, ht, hb, hn, hfn, hinv, hdec,
      hput]
  · simp [publicUrl, imageKeyOf, pyStrOfOpt, hn]

/-- Claim C7 witness: the success shape at a concrete all-success
request. -/
theorem C7_witness :
    GenerateAndListImages.lambda_handler envFull effOk evPostCat
      = (⟨200, corsCombined,
          .imageUrl (publicUrl envFull
            (imageKeyOf (Effects.freshUuid effOk)))⟩, [.model, .put])
    ∧ GenerateImagePy.lambda_handler envFull effOk evPostCat
      = .ok (⟨200, corsStandalone,
          .imageUrl (publicUrl envFull
            (imageKeyOf (Effects.freshUuid effOk)))⟩, [.model, .put])
    ∧ publicUrl envFull (imageKeyOf (Effects.freshUuid effOk))
      = ("https://") ++ ("alice") ++ (".mixtli.cloud/")
        ++ (("generated-images/") ++ uuidStr (Effects.freshUuid effOk)
          ++ (".png"))
    ∧ validUuid (uuidStr (Effects.freshUuid effOk)) :=
  C7_success_url envFull effOk evPostCat (.vstr ("cat")) ("aW1hZ2U=")
    [105, 109, 97, 103, 101] ("alice") rfl rfl rfl (by decide) rfl
    (by decide) rfl rfl rfl

/-- Claim C8 counterexample: with `S3_BUCKET_NAME` unset, a request with
an unsupported method receives the 500 configuration response, not 405. -/
theorem C8_counterexample :
    GenerateAndListImages.lambda_handler envNoBucket effOk evPut
      = (⟨500, corsCombined,
          .message ("S3_BUCKET_NAME environment variable is not set.")⟩, [])
    ∧ Event.httpMethod evPut = some ("PUT") :=
  ⟨rfl, rfl⟩

/-- Claim C8 (amended): provided the storage-location configuration is
set, every request whose method is neither POST nor GET receives 405
`"Method Not Allowed"` regardless of its body (without that configuration
the 500 configuration response takes precedence). -/
theorem C8_amended (env : Env) (eff : Effects) (ev : Event)
    (hb : falsyOpt env.bucket = false)
    (h1 : ev.httpMethod ≠ some ("POST"))
    (h2 : ev.httpMethod ≠ some ("GET")) :
    GenerateAndListImages.lambda_handler env eff ev
      = (⟨405, corsCombined, .message ("Method Not Allowed")⟩, []) := by
  simp [GenerateAndListImages.lambda_handler, hb, h1, h2]

/-- Claim C8 witness: the amended statement at a concrete PUT request. -/
theorem C8_witness :
    GenerateAndListImages.lambda_handler envFull effOk evPut
      = (⟨405, corsCombined, .message ("Method Not Allowed")⟩, []) :=
  C8_amended envFull effOk evPut (by decide) (by decide) (by decide)

/-- Claim C9: in the combined handler the configuration check precedes
method dispatch: whenever `S3_BUCKET_NAME` is unset (or empty) the
response is the fixed 500 configuration message with no external call,
whatever the HTTP method. -/
theorem C9_config_before_dispatch (env : Env) (eff : Effects) (ev : Event)
    (hb : falsyOpt env.bucket = true) :
    GenerateAndListImages.lambda_handler env eff ev
      = (⟨500, corsCombined,
          .message ("S3_BUCKET_NAME environment variable is not set.")⟩,
         []) := by
  simp [GenerateAndListImages.lambda_handler, hb]

/-- Claim C9 witness: the configuration 500 at a concrete request whose
method is unrecognized. -/
theorem C9_witness :
    GenerateAndListImages.lambda_handler envNoBucket effOk evPut
      = (⟨500, corsCombined,
          .message ("S3_BUCKET_NAME environment variable is not set.")⟩,
         []) :=
  C9_config_before_dispatch envNoBucket effOk evPut (by decide)

/-- Claim C10: the standalone create handler never reaches the dead
`except ClientError` / `except ImageError` clauses (modelled as the
`.error` crash outcome), because the blanket `except Exception` catches
every exception its try block can raise; hence the undefined names in
those clauses never cause a `NameError`. -/
theorem C10_dead_clauses_unreachable (env : Env) (eff : Effects)
    (ev : Event) :
    ∃ out, GenerateImagePy.lambda_handler env eff ev = .ok out := by
  unfold GenerateImagePy.lambda_handler
  rcases hg : getPrompt eff ev with e | pv
  · try simp only [hg]
    exact ⟨_, rfl⟩
  · try simp only [hg]
    cases ht : truthy pv with
    | false =>
        try simp only [ht]
        exact ⟨_, rfl⟩
    | true =>
        try simp only [ht]
        cases hbk : falsyOpt env.bucket with
        | true =>
            try simp only [hbk]
            exact ⟨_, rfl⟩
        | false =>
            try simp only [hbk]
            cases hyn : falsyOpt env.yourName with
            | true =>
                try simp only [hyn]
                exact ⟨_, rfl⟩
            | false =>
                try simp only [hyn]
                rcases hiv : eff.invokeModel pv with e2 | b64
                · try simp only [hiv, derivesFromException_true]
                  exact ⟨_, rfl⟩
                · try simp only [hiv]
                  rcases hdc : eff.b64decode b64 with e3 | bytes
                  · try simp only [hdc]
                    exact ⟨_, rfl⟩
                  · try simp only [hdc]
                    rcases hpt : eff.putObject env.bucket
                        (imageKeyOf eff.freshUuid) bytes with e4 | u
                    · try simp only [hpt]
                      exact ⟨_, rfl⟩
                    · try simp only [hpt]
                      exact ⟨_, rfl⟩

end ImageGen
